import Mathlib

/-!
Shallow embedding of the nursery-maint facility-maintenance application
(`src/app/mainapp/views.py`, `src/mainapp/models.py`).

Conventions of the embedding:
* machine strings are Lean `String`s; Python `str.strip()` is modelled by
  `strip` below (whitespace at both ends removed, character-level);
* timestamps (`timezone.now()`, `DateTimeField`) are `Nat` instants;
* `DecimalField` values are `Dec` (mantissa/exponent pairs), and Python's
  `Decimal(value)` constructor is modelled by the executable parser
  `parseDecimal` (sign, digits, optional fraction, optional exponent);
* uploaded files and stored attachments are opaque `Nat` handles;
* the PDF canvas is abstracted to the list of text strings drawn on it, in
  drawing order (coordinates, pagination and fonts are rendering details of
  the reportlab collaborator, outside the modelled core);
* each Django request handler becomes a pure function from its inputs
  (request fields, the relevant table rows) to the updated rows.
-/

namespace NurseryMaint

/-- MaintenanceTask.STATUS_CHOICES codes. -/
inductive TaskStatus
  | scheduled
  | in_progress
  | done
  | cancelled
deriving DecidableEq, Repr

/-- Asset.STATUS_CHOICES codes. -/
inductive AssetStatus
  | active
  | out_of_service
  | disposed
deriving DecidableEq, Repr

/-- ChecklistTemplateItem.TYPE_CHOICES codes. -/
inductive ItemType
  | yesno
  | number
  | text
  | photo
deriving DecidableEq, Repr

/-- A decimal number as stored by a DecimalField: `mantissa * 10 ^ exponent`. -/
structure Dec where
  mantissa : Int
  exponent : Int
deriving DecidableEq, Repr

/-- ASCII whitespace test used by `strip`. -/
def isSpaceChar (c : Char) : Bool :=
  c == ' ' || c == '\t' || c == '\n' || c == '\r'

/-- Character-level two-sided trim. -/
def trimChars (cs : List Char) : List Char :=
  ((cs.dropWhile isSpaceChar).reverse.dropWhile isSpaceChar).reverse

/-- Python `str.strip()`. -/
def strip (s : String) : String :=
  ⟨trimChars s.data⟩

/-- Decimal digit test. -/
def isDigit (c : Char) : Bool :=
  '0' ≤ c && c ≤ '9'

/-- Numeric value of a digit string (most significant first). -/
def digitsToNat (cs : List Char) : Nat :=
  cs.foldl (fun a c => a * 10 + (c.toNat - 48)) 0

/-- Exponent part of a decimal literal: optional sign then digits. -/
def parseExp : List Char → Option Int
  | [] => none
  | '+' :: ds =>
      if !ds.isEmpty && ds.all isDigit then some ((digitsToNat ds : Nat) : Int) else none
  | '-' :: ds =>
      if !ds.isEmpty && ds.all isDigit then some (-((digitsToNat ds : Nat) : Int)) else none
  | ds =>
      if ds.all isDigit then some ((digitsToNat ds : Nat) : Int) else none

/-- Unsigned decimal literal: digits, optional fraction, optional exponent. -/
def parseDecCore (cs : List Char) : Option Dec :=
  let p := cs.span isDigit
  match p.2 with
  | [] => if p.1.isEmpty then none else some ⟨(digitsToNat p.1 : Int), 0⟩
  | '.' :: t =>
      let q := t.span isDigit
      if p.1.isEmpty && q.1.isEmpty then none
      else
        let base : Dec :=
          ⟨(digitsToNat p.1 : Int) * (10 : Int) ^ q.1.length + (digitsToNat q.1 : Int),
            -(q.1.length : Int)⟩
        match q.2 with
        | [] => some base
        | 'e' :: ec => (parseExp ec).map fun e => ⟨base.mantissa, base.exponent + e⟩
        | 'E' :: ec => (parseExp ec).map fun e => ⟨base.mantissa, base.exponent + e⟩
        | _ => none
  | 'e' :: ec =>
      if p.1.isEmpty then none
      else (parseExp ec).map fun e => ⟨(digitsToNat p.1 : Int), e⟩
  | 'E' :: ec =>
      if p.1.isEmpty then none
      else (parseExp ec).map fun e => ⟨(digitsToNat p.1 : Int), e⟩
  | _ => none

/-- Python `Decimal(value)`: optional sign then an unsigned decimal literal.
`none` models the `InvalidOperation` branch of the caller's `try/except`. -/
def parseDecimal (s : String) : Option Dec :=
  match s.data with
  | [] => none
  | '+' :: cs => parseDecCore cs
  | '-' :: cs => (parseDecCore cs).map fun d => ⟨-d.mantissa, d.exponent⟩
  | cs => parseDecCore cs

/-- Lower-cased character list of a string (icontains normalisation). -/
def lowerChars (s : String) : List Char :=
  s.data.map Char.toLower

/-- Does `needle` occur at the head of `hay`? -/
def leadMatch : List Char → List Char → Bool
  | [], _ => true
  | _ :: _, [] => false
  | a :: as, b :: bs => a == b && leadMatch as bs

/-- Does `needle` occur contiguously anywhere in `hay`? -/
def hasRun (needle : List Char) : List Char → Bool
  | [] => needle.isEmpty
  | c :: rest => leadMatch needle (c :: rest) || hasRun needle rest

/-- Django `field__icontains=q`: case-insensitive substring test. -/
def icontains (hay q : String) : Bool :=
  hasRun (lowerChars q) (lowerChars hay)

/-- models.Site. -/
structure Site where
  id : Nat
  name : String
  address : String
  notes : String
deriving DecidableEq, Repr

/-- models.Asset.  `qr_token` is the 128-bit UUID value as a number;
`qr_image`, `purchase_date` and `created_at` play no role in any claim. -/
structure Asset where
  id : Nat
  site : Nat
  name : String
  asset_type : String
  serial : String
  vendor : String
  status : AssetStatus
  qr_token : Nat
deriving DecidableEq, Repr

/-- models.MaintenanceTask.  `report_pdf` holds the abstracted report
(list of drawn strings) once generated. -/
structure MaintenanceTask where
  id : Nat
  site : Nat
  plan : Option Nat
  title : String
  scheduled_for : Nat
  status : TaskStatus
  notes : String
  report_pdf : Option (List String)
  completed_at : Option Nat
deriving DecidableEq, Repr

/-- models.ChecklistTemplate; `site = none` is a global template. -/
structure ChecklistTemplate where
  id : Nat
  name : String
  site : Option Nat
deriving DecidableEq, Repr

/-- models.ChecklistTemplateItem. -/
structure ChecklistTemplateItem where
  id : Nat
  template : Nat
  order : Nat
  label : String
  item_type : ItemType
  required : Bool
  unit : String
deriving DecidableEq, Repr

/-- models.TaskChecklistItem: snapshot fields plus the four value slots. -/
structure TaskChecklistItem where
  id : Nat
  task : Nat
  asset : Option Nat
  template_item : Option Nat
  label_snapshot : String
  item_type : ItemType
  required : Bool
  unit : String
  value_text : String
  value_number : Option Dec
  value_bool : Option Bool
  attachment : Option Nat
deriving DecidableEq, Repr

/-- Status code strings of MaintenanceTask.STATUS_CHOICES. -/
def statusCode : TaskStatus → String
  | TaskStatus.scheduled => "scheduled"
  | TaskStatus.in_progress => "in_progress"
  | TaskStatus.done => "done"
  | TaskStatus.cancelled => "cancelled"

/-- Membership test `status in valid_status` of the handlers, returned as the
decoded status. -/
def parseStatus (s : String) : Option TaskStatus :=
  if s = "scheduled" then some TaskStatus.scheduled
  else if s = "in_progress" then some TaskStatus.in_progress
  else if s = "done" then some TaskStatus.done
  else if s = "cancelled" then some TaskStatus.cancelled
  else none

/-- Italian display labels (get_status_display). -/
def statusDisplay : TaskStatus → String
  | TaskStatus.scheduled => "Programmato"
  | TaskStatus.in_progress => "In corso"
  | TaskStatus.done => "Chiuso"
  | TaskStatus.cancelled => "Annullato"

/-- Status code strings of Asset.STATUS_CHOICES. -/
def assetStatusCode : AssetStatus → String
  | AssetStatus.active => "active"
  | AssetStatus.out_of_service => "out_of_service"
  | AssetStatus.disposed => "disposed"

/-- Membership test in ChecklistTemplateItem.TYPE_CHOICES codes. -/
def parseItemType (s : String) : Option ItemType :=
  if s = "yesno" then some ItemType.yesno
  else if s = "number" then some ItemType.number
  else if s = "text" then some ItemType.text
  else if s = "photo" then some ItemType.photo
  else none

/-- Name of a site row by id (FK traversal `site.name`). -/
def siteNameOf (sites : List Site) (sid : Nat) : String :=
  match sites.find? (fun s => s.id == sid) with
  | some s => s.name
  | none => ""

/-- Name of an asset row by id (FK traversal `asset.name`). -/
def assetNameOf (assets : List Asset) (aid : Nat) : String :=
  match assets.find? (fun a => a.id == aid) with
  | some a => a.name
  | none => ""

/-- `Asset.objects.filter(id=asset_id, site=task.site).first()`, used by both
checklist-creation handlers to resolve the optional tagged asset. -/
def resolveAsset (assets : List Asset) (assetId : Option Nat) (siteId : Nat) : Option Nat :=
  match assetId with
  | none => none
  | some aid =>
      ((assets.filter (fun a => a.id == aid && a.site == siteId)).head?).map (fun a => a.id)

/-- DB `Meta.ordering = ["order", "id"]` on ChecklistTemplateItem. -/
def tplItemRel (a b : ChecklistTemplateItem) : Prop :=
  a.order < b.order ∨ (a.order = b.order ∧ a.id ≤ b.id)

instance : DecidableRel tplItemRel := fun a b => by
  unfold tplItemRel; infer_instance

instance : IsTotal ChecklistTemplateItem tplItemRel where
  total a b := by unfold tplItemRel; omega

instance : IsTrans ChecklistTemplateItem tplItemRel where
  trans a b c hab hbc := by unfold tplItemRel at hab hbc ⊢; omega

/-- `template.items.all()`: the template's item rows in Meta ordering. -/
def templateItemsOf (tpl : ChecklistTemplate) (allItems : List ChecklistTemplateItem) :
    List ChecklistTemplateItem :=
  List.insertionSort tplItemRel (allItems.filter (fun it => it.template == tpl.id))

/-- The TaskChecklistItem row built for one template item inside
`_create_checklist_from_template` (views.py lines 152-162). -/
def snapshotOf (task : MaintenanceTask) (asset : Option Nat) (nid : Nat)
    (it : ChecklistTemplateItem) : TaskChecklistItem :=
  { id := nid, task := task.id, asset := asset, template_item := some it.id,
    label_snapshot := it.label, item_type := it.item_type, required := it.required,
    unit := it.unit, value_text := "", value_number := none, value_bool := none,
    attachment := none }

/-- The `for item in template.items.all()` accumulation loop, with fresh row
ids assigned in iteration order. -/
def buildSnapshots (task : MaintenanceTask) (asset : Option Nat) :
    Nat → List ChecklistTemplateItem → List TaskChecklistItem
  | _, [] => []
  | nid, it :: rest => snapshotOf task asset nid it :: buildSnapshots task asset (nid + 1) rest

/-- views._create_checklist_from_template (lines 149-164). -/
def create_checklist_from_template (nextId : Nat) (task : MaintenanceTask)
    (tpl : ChecklistTemplate) (allItems : List ChecklistTemplateItem)
    (asset : Option Nat) : List TaskChecklistItem :=
  buildSnapshots task asset nextId (templateItemsOf tpl allItems)

/-- The template-site guard of views.task_list (lines 502-503):
`if template.site_id and template.site_id != site.id: template = None`,
as a Boolean: does the template pass for the given task site? -/
def scopeCheck (tplSite : Option Nat) (siteId : Nat) : Bool :=
  match tplSite with
  | some s => s == siteId
  | none => true

/-- views.task_detail, action `generate_checklist` (lines 354-361): the
template is fetched by id and instantiated with NO site-scope validation. -/
def generate_checklist (nextId : Nat) (task : MaintenanceTask)
    (tpl : ChecklistTemplate) (allItems : List ChecklistTemplateItem)
    (asset : Option Nat) : List TaskChecklistItem :=
  create_checklist_from_template nextId task tpl allItems asset

/-- views.task_list, `create_task` path (lines 498-506): the template is
discarded when it is scoped to a site other than the new task's site. -/
def task_list_create_checklist (nextId : Nat) (task : MaintenanceTask)
    (tpl : ChecklistTemplate) (allItems : List ChecklistTemplateItem)
    (asset : Option Nat) : List TaskChecklistItem :=
  let kept : Option ChecklistTemplate :=
    match tpl.site with
    | some s => if s ≠ task.site then none else some tpl
    | none => some tpl
  match kept with
  | some tp => create_checklist_from_template nextId task tp allItems asset
  | none => []

/-- views.task_detail, action `update_task` (lines 342-353). -/
def update_task (now : Nat) (t : MaintenanceTask) (rawStatus : String) : MaintenanceTask :=
  match parseStatus (strip rawStatus) with
  | none => t
  | some s =>
      if s = TaskStatus.done ∧ (t.status ≠ TaskStatus.done ∨ t.completed_at = none) then
        { t with status := s, completed_at := some now }
      else
        { t with status := s }

/-- views.task_detail, action `add_checklist_item` (lines 362-381);
`none` is the `if label:` guard failing (no row created). -/
def add_checklist_item (nextId : Nat) (task : MaintenanceTask) (assets : List Asset)
    (labelRaw rawType : String) (required : Bool) (unitRaw : String)
    (assetId : Option Nat) : Option TaskChecklistItem :=
  let label := strip labelRaw
  if label = "" then none
  else
    let ty0 := strip rawType
    let itemType :=
      match parseItemType ty0 with
      | some ty => ty
      | none => ItemType.yesno
    some { id := nextId, task := task.id, asset := resolveAsset assets assetId task.site,
           template_item := none, label_snapshot := label, item_type := itemType,
           required := required, unit := strip unitRaw,
           value_text := "", value_number := none, value_bool := none, attachment := none }

/-- One POST form for `save_answers`: per item id, the value of the field
`item_<id>_yesno` / `_number` / `_text` (with the handler's default `""`
standing for an absent field), and the optional `item_<id>_photo` upload. -/
structure AnswerSubmission where
  yesno : Nat → String
  number : Nat → String
  text : Nat → String
  photo : Nat → Option Nat

/-- The per-item body of the `save_answers` loop (views.py lines 384-408). -/
def apply_answer (sub : AnswerSubmission) (item : TaskChecklistItem) : TaskChecklistItem :=
  match item.item_type with
  | ItemType.yesno =>
      let value := sub.yesno item.id
      if value = "yes" then { item with value_bool := some true }
      else if value = "no" then { item with value_bool := some false }
      else { item with value_bool := none }
  | ItemType.number =>
      let value := strip (sub.number item.id)
      if value ≠ "" then { item with value_number := parseDecimal value }
      else { item with value_number := none }
  | ItemType.text =>
      { item with value_text := strip (sub.text item.id) }
  | ItemType.photo =>
      match sub.photo item.id with
      | some f => { item with attachment := some f }
      | none => item

/-- views.task_detail, action `save_answers`: the loop over the task's items. -/
def save_answers (sub : AnswerSubmission) (items : List TaskChecklistItem) :
    List TaskChecklistItem :=
  items.map (apply_answer sub)

/-- views._format_datetime_for_pdf: `-` for an unset timestamp (the strftime
rendering of a set one is abstracted to the numeral of the instant). -/
def fmt_dt : Option Nat → String
  | none => "-"
  | some v => toString v

/-- Rendering of one Dec, standing in for Python's `str(Decimal)`. -/
def decDisplay (d : Dec) : String :=
  toString d.mantissa ++ "E" ++ toString d.exponent

/-- views._format_task_item_answer (lines 166-180). -/
def format_task_item_answer (item : TaskChecklistItem) : String :=
  match item.item_type with
  | ItemType.yesno =>
      match item.value_bool with
      | some true => "SI"
      | some false => "NO"
      | none => "-"
  | ItemType.number =>
      match item.value_number with
      | none => "-"
      | some n => decDisplay n ++ (if item.unit ≠ "" then " " ++ item.unit else "")
  | ItemType.photo =>
      if item.attachment.isSome then "Foto allegata" else "-"
  | ItemType.text =>
      if item.value_text = "" then "-" else item.value_text

/-- views draw_label_value: `label: value`, `-` for an empty value. -/
def label_value (label value : String) : String :=
  label ++ ": " ++ (if value = "" then "-" else value)

/-- Python `str.splitlines`, used for the free-text notes section. -/
def splitLinesAux : List Char → List Char → List String
  | acc, [] => [⟨acc.reverse⟩]
  | acc, '\n' :: [] => [⟨acc.reverse⟩]
  | acc, '\n' :: rest => String.mk acc.reverse :: splitLinesAux [] rest
  | acc, c :: rest => splitLinesAux (c :: acc) rest

/-- Python `str.splitlines` on a whole string. -/
def splitlines (s : String) : List String :=
  if s.data.isEmpty then [] else splitLinesAux [] s.data

/-- The strings drawn for one checklist entry of the report
(views.py lines 264-271). -/
def render_report_item (assets : List Asset) (idx : Nat) (it : TaskChecklistItem) :
    List String :=
  [toString idx ++ ". " ++ it.label_snapshot,
   "Risposta: " ++ format_task_item_answer it]
  ++ (match it.asset with
      | some aid => ["Asset: " ++ assetNameOf assets aid]
      | none => [])

/-- `for idx, item in enumerate(items, start=1)`. -/
def render_report_items (assets : List Asset) : Nat → List TaskChecklistItem → List String
  | _, [] => []
  | idx, it :: rest => render_report_item assets idx it ++ render_report_items assets (idx + 1) rest

/-- views._build_task_report_pdf (lines 182-278), abstracted to the list of
strings drawn on the canvas in drawing order. -/
def build_task_report_pdf (siteName : String) (assets : List Asset)
    (t : MaintenanceTask) (items : List TaskChecklistItem) (now : Nat) : List String :=
  ["Report intervento", "Dati intervento",
   label_value "Sede" siteName,
   label_value "Titolo" t.title,
   label_value "Stato" (statusDisplay t.status),
   label_value "Pianificato" (fmt_dt (some t.scheduled_for)),
   label_value "Data esecuzione" (fmt_dt t.completed_at),
   label_value "Report generato" (fmt_dt (some now))]
  ++ (if t.notes ≠ "" then "Note" :: splitlines t.notes else [])
  ++ ["Checklist"]
  ++ render_report_items assets 1 items
  ++ (if items.isEmpty then ["Nessuna voce in checklist."] else [])

/-- The `close_task == "1"` tail of the `save_answers` handler
(views.py lines 409-421): stamp completion if freshly completed, build and
store the report, set status to done. -/
def close_task (now : Nat) (siteName : String) (assets : List Asset)
    (t : MaintenanceTask) (items : List TaskChecklistItem) : MaintenanceTask :=
  let t1 :=
    if t.status ≠ TaskStatus.done ∨ t.completed_at = none then
      { t with completed_at := some now }
    else t
  { t1 with
    status := TaskStatus.done,
    report_pdf := some (build_task_report_pdf siteName assets t1 items now) }

/-- views.task_detail, action `save_answers` (lines 382-422): batch answer
rewrite, then optionally the close-task tail.  Returns the updated task row
and the updated item rows. -/
def save_answers_action (sub : AnswerSubmission) (closeFlag : Bool) (now : Nat)
    (siteName : String) (assets : List Asset) (t : MaintenanceTask)
    (items : List TaskChecklistItem) : MaintenanceTask × List TaskChecklistItem :=
  let items2 := save_answers sub items
  if closeFlag then (close_task now siteName assets t items2, items2) else (t, items2)

/-- The free-text predicate of views.asset_list (lines 456-462): five
`icontains` branches OR-ed together, one of them on the site's name. -/
def asset_matches (sites : List Site) (q : String) (a : Asset) : Bool :=
  icontains a.name q || icontains a.asset_type q || icontains a.serial q
    || icontains (siteNameOf sites a.site) q || icontains a.vendor q

/-- `order_by("name")` comparison for assets. -/
def assetNameRel (a b : Asset) : Prop :=
  ¬ b.name < a.name

instance : DecidableRel assetNameRel := fun a b => by
  unfold assetNameRel; infer_instance

/-- views.asset_list (lines 447-463): status filter, free-text filter,
order by name. -/
def asset_list (sites : List Site) (assets : List Asset)
    (statusRaw qRaw : String) : List Asset :=
  let statusFilter := strip statusRaw
  let query := strip qRaw
  let l1 :=
    if statusFilter ≠ "" then
      assets.filter (fun a => assetStatusCode a.status == statusFilter)
    else assets
  let l2 :=
    if query ≠ "" then l1.filter (fun a => asset_matches sites query a)
    else l1
  List.insertionSort assetNameRel l2

/-- The qr_token column of the asset table. -/
def asset_tokens (db : List Asset) : List Nat :=
  db.map (fun a => a.qr_token)

/-- Asset row insertion under the storage layer's `unique=True` constraint on
qr_token (models.py line 29): a collision surfaces as a creation failure. -/
def create_asset (db : List Asset) (a : Asset) : Except String (List Asset) :=
  if a.qr_token ∈ asset_tokens db then Except.error "duplicate qr_token"
  else Except.ok (db ++ [a])

/-- The fields an asset edit (admin form) may change: every model field
except the `editable=False`, `readonly_fields` token and the id. -/
structure AssetForm where
  site : Nat
  name : String
  asset_type : String
  serial : String
  vendor : String
  status : AssetStatus
deriving DecidableEq, Repr

/-- An asset edit: rewrites the editable columns of the addressed row and
leaves `qr_token` untouched (it is `editable=False` and admin-readonly). -/
def admin_edit_asset (db : List Asset) (aid : Nat) (form : AssetForm) : List Asset :=
  db.map (fun a =>
    if a.id == aid then
      { a with site := form.site, name := form.name, asset_type := form.asset_type,
               serial := form.serial, vendor := form.vendor, status := form.status }
    else a)

/-- The tables a template edit can see. -/
structure Database where
  templateItems : List ChecklistTemplateItem
  taskItems : List TaskChecklistItem
deriving Repr

/-- Editing a ChecklistTemplateItem row (admin inline): rewrites that row of
the template-item table; snapshot rows live in another table. -/
def edit_template_item (db : Database) (itemId : Nat)
    (f : ChecklistTemplateItem → ChecklistTemplateItem) : Database :=
  { db with templateItems := db.templateItems.map (fun it => if it.id == itemId then f it else it) }

/-- The snapshot payload of a TaskChecklistItem: everything except the weak
`template_item` back-reference. -/
def snapFields (s : TaskChecklistItem) : Nat × Nat × Option Nat × String × ItemType × Bool × String :=
  (s.id, s.task, s.asset, s.label_snapshot, s.item_type, s.required, s.unit)

/-- Deleting a ChecklistTemplateItem row: `on_delete=SET_NULL` nulls the weak
back-reference of any snapshot row, nothing else changes. -/
def delete_template_item (db : Database) (itemId : Nat) : Database :=
  { templateItems := db.templateItems.filter (fun it => it.id != itemId),
    taskItems := db.taskItems.map (fun s =>
      if s.template_item == some itemId then { s with template_item := none } else s) }

/-- Value-slot discipline of a TaskChecklistItem: any value slot not selected
by `item_type` is empty/unset. -/
def typedOk (it : TaskChecklistItem) : Prop :=
  (it.item_type ≠ ItemType.yesno → it.value_bool = none)
  ∧ (it.item_type ≠ ItemType.number → it.value_number = none)
  ∧ (it.item_type ≠ ItemType.text → it.value_text = "")
  ∧ (it.item_type ≠ ItemType.photo → it.attachment = none)

theorem buildSnapshots_length (task : MaintenanceTask) (asset : Option Nat) :
    ∀ (nid : Nat) (l : List ChecklistTemplateItem),
      (buildSnapshots task asset nid l).length = l.length
  | _, [] => rfl
  | nid, _ :: rest => by
      simp [buildSnapshots, buildSnapshots_length task asset (nid + 1) rest]

theorem buildSnapshots_get (task : MaintenanceTask) (asset : Option Nat) :
    ∀ (nid : Nat) (l : List ChecklistTemplateItem) (i : Nat)
      (h : i < (buildSnapshots task asset nid l).length) (h2 : i < l.length),
      (buildSnapshots task asset nid l).get ⟨i, h⟩
        = snapshotOf task asset (nid + i) (l.get ⟨i, h2⟩)
  | _, [], i, _, h2 => absurd h2 (by simp)
  | _, _ :: _, 0, _, _ => rfl
  | nid, it :: rest, i + 1, h, h2 => by
      have h' : i < (buildSnapshots task asset (nid + 1) rest).length := by
        have := h; simp [buildSnapshots] at this; omega
      have h2' : i < rest.length := Nat.lt_of_succ_lt_succ h2
      show (buildSnapshots task asset (nid + 1) rest).get ⟨i, h'⟩ = _
      rw [buildSnapshots_get task asset (nid + 1) rest i h' h2']
      have he : nid + 1 + i = nid + (i + 1) := by omega
      rw [he]
      rfl

theorem typedOk_snapshotOf (task : MaintenanceTask) (asset : Option Nat)
    (nid : Nat) (it : ChecklistTemplateItem) :
    typedOk (snapshotOf task asset nid it) := by
  simp [typedOk, snapshotOf]

theorem typedOk_buildSnapshots (task : MaintenanceTask) (asset : Option Nat) :
    ∀ (nid : Nat) (l : List ChecklistTemplateItem) (x : TaskChecklistItem),
      x ∈ buildSnapshots task asset nid l → typedOk x
  | _, [], x, hx => absurd hx (by simp [buildSnapshots])
  | nid, it :: rest, x, hx => by
      rcases (by simpa [buildSnapshots] using hx : x = snapshotOf task asset nid it
          ∨ x ∈ buildSnapshots task asset (nid + 1) rest) with rfl | hx2
      · exact typedOk_snapshotOf task asset nid it
      · exact typedOk_buildSnapshots task asset (nid + 1) rest x hx2

theorem report_marker_of_empty (siteName : String) (assets : List Asset)
    (t : MaintenanceTask) (now : Nat) :
    "Nessuna voce in checklist." ∈ build_task_report_pdf siteName assets t [] now := by
  simp [build_task_report_pdf, render_report_items]

/-- Concrete rows used for closed evaluations: a task at site 1, a template
scoped to site 2 with one item, and a global template with one item. -/
def exTask : MaintenanceTask :=
  { id := 1, site := 1, plan := none, title := "visita", scheduled_for := 0,
    status := TaskStatus.scheduled, notes := "", report_pdf := none, completed_at := none }

def exScopedTemplate : ChecklistTemplate :=
  { id := 7, name := "modello sede 2", site := some 2 }

def exGlobalTemplate : ChecklistTemplate :=
  { id := 8, name := "modello globale", site := none }

def exTemplateItems : List ChecklistTemplateItem :=
  [{ id := 3, template := 7, order := 0, label := "controllo filtri",
     item_type := ItemType.yesno, required := false, unit := "" },
   { id := 4, template := 8, order := 0, label := "pulizia locali",
     item_type := ItemType.text, required := false, unit := "" }]

/-- C1: the claim that every instantiation path rejects a template scoped to a
different site fails on the code.  On the create-task path (task_list) the
mismatched template is indeed discarded and a global template succeeds, but on
the existing-task path (task_detail, action generate_checklist) there is no
site check at all: instantiating the site-2 template onto the site-1 task
creates its snapshot item anyway. -/
theorem generate_checklist_ignores_template_scope :
    scopeCheck exScopedTemplate.site exTask.site = false
    ∧ task_list_create_checklist 10 exTask exScopedTemplate exTemplateItems none = []
    ∧ (generate_checklist 10 exTask exScopedTemplate exTemplateItems none).length = 1
    ∧ (generate_checklist 10 exTask exGlobalTemplate exTemplateItems none).length = 1
    ∧ (task_list_create_checklist 10 exTask exGlobalTemplate exTemplateItems none).length = 1 := by
  decide

/-- C2: a status update entering `done` stamps the completion timestamp to the
current instant exactly when the task was not already done or had no
completion timestamp; re-closing an already-completed task with a set
timestamp leaves it unchanged, and a valid update leaving `done` never clears
it.  The same stamping rule holds on the close-task path. -/
theorem done_transition_stamps_completed_at (t : MaintenanceTask) (now : Nat)
    (raw : String) (s : TaskStatus) (siteName : String) (assets : List Asset)
    (items : List TaskChecklistItem)
    (hp : parseStatus (strip raw) = some s) :
    ((s = TaskStatus.done ∧ (t.status ≠ TaskStatus.done ∨ t.completed_at = none)) →
        (update_task now t raw).completed_at = some now)
    ∧ ((s = TaskStatus.done ∧ t.status = TaskStatus.done ∧ t.completed_at ≠ none) →
        (update_task now t raw).completed_at = t.completed_at)
    ∧ (s ≠ TaskStatus.done → (update_task now t raw).completed_at = t.completed_at)
    ∧ ((t.status ≠ TaskStatus.done ∨ t.completed_at = none) →
        (close_task now siteName assets t items).completed_at = some now)
    ∧ ((t.status = TaskStatus.done ∧ t.completed_at ≠ none) →
        (close_task now siteName assets t items).completed_at = t.completed_at) := by
  refine ⟨?_, ?_, ?_, ?_, ?_⟩
  · intro hc
    simp only [update_task, hp, if_pos hc]
  · rintro ⟨hs, hst, hca⟩
    have hnc : ¬ (s = TaskStatus.done ∧ (t.status ≠ TaskStatus.done ∨ t.completed_at = none)) := by
      rintro ⟨-, hc | hc⟩
      · exact hc hst
      · exact hca hc
    simp only [update_task, hp, if_neg hnc]
  · intro hs
    have hnc : ¬ (s = TaskStatus.done ∧ (t.status ≠ TaskStatus.done ∨ t.completed_at = none)) := by
      rintro ⟨hc, -⟩; exact hs hc
    simp only [update_task, hp, if_neg hnc]
  · intro hc
    simp only [close_task, if_pos hc]
  · rintro ⟨hst, hca⟩
    have hnc : ¬ (t.status ≠ TaskStatus.done ∨ t.completed_at = none) := by
      rintro (hc | hc)
      · exact hc hst
      · exact hca hc
    simp only [close_task, if_neg hnc]

theorem done_transition_stamps_completed_at_witness :
    (update_task 5 exTask "done").completed_at = some 5 :=
  (done_transition_stamps_completed_at exTask 5 "done" TaskStatus.done "" [] []
      (by decide)).1 (by decide)

/-- C3: a status-update request whose target value is outside the four valid
codes is a silent no-op: the whole task row (status and completion timestamp
included) is returned unchanged, and no error path exists. -/
theorem invalid_status_update_is_noop (t : MaintenanceTask) (now : Nat)
    (raw : String) (hp : parseStatus (strip raw) = none) :
    update_task now t raw = t := by
  simp only [update_task, hp]

theorem invalid_status_update_is_noop_witness :
    update_task 5 exTask "closed" = exTask :=
  invalid_status_update_is_noop exTask 5 "closed" (by decide)

/-- C4: for a number-typed checklist item, a non-empty submitted string that
does not parse as a decimal clears the stored numeric value (the previous
value is not retained), and an empty string likewise clears it; the operation
is total, so no error reaches the caller. -/
theorem unparsable_number_answer_clears (sub : AnswerSubmission)
    (it : TaskChecklistItem) (hty : it.item_type = ItemType.number) :
    (strip (sub.number it.id) ≠ "" → parseDecimal (strip (sub.number it.id)) = none →
        (apply_answer sub it).value_number = none)
    ∧ (strip (sub.number it.id) = "" → (apply_answer sub it).value_number = none) := by
  constructor
  · intro hne hp
    simp only [apply_answer, hty, if_pos hne, hp]
  · intro he
    have hnn : ¬ strip (sub.number it.id) ≠ "" := by simp [he]
    simp only [apply_answer, hty, if_neg hnn]

def exNumberItem : TaskChecklistItem :=
  { id := 9, task := 1, asset := none, template_item := none,
    label_snapshot := "temperatura", item_type := ItemType.number, required := false,
    unit := "C", value_text := "", value_number := some ⟨215, -1⟩, value_bool := none,
    attachment := none }

def exUnparsableSub : AnswerSubmission :=
  { yesno := fun _ => "", number := fun _ => "ventuno", text := fun _ => "",
    photo := fun _ => none }

theorem unparsable_number_answer_clears_witness :
    (apply_answer exUnparsableSub exNumberItem).value_number = none :=
  (unparsable_number_answer_clears exUnparsableSub exNumberItem (by decide)).1
    (by decide) (by decide)

/-- C5: instantiating a template with N items creates exactly N checklist
items on the task; the instantiated sequence follows the template's item
order (ascending `order`, ties by row id) over exactly the template's items;
each created row is the snapshot of the corresponding template item (copying
label, type, required and unit at instantiation time); and a later edit or
deletion of a template item leaves existing snapshot rows' payload
unchanged. -/
theorem template_instantiation_snapshots (nextId : Nat) (task : MaintenanceTask)
    (tpl : ChecklistTemplate) (allItems : List ChecklistTemplateItem)
    (asset : Option Nat) (db : Database) (itemId : Nat)
    (f : ChecklistTemplateItem → ChecklistTemplateItem) :
    (create_checklist_from_template nextId task tpl allItems asset).length
        = (templateItemsOf tpl allItems).length
    ∧ List.Perm (templateItemsOf tpl allItems)
        (allItems.filter (fun it => it.template == tpl.id))
    ∧ List.Sorted tplItemRel (templateItemsOf tpl allItems)
    ∧ (∀ (i : Nat) (h : i < (create_checklist_from_template nextId task tpl allItems asset).length)
        (h2 : i < (templateItemsOf tpl allItems).length),
        (create_checklist_from_template nextId task tpl allItems asset).get ⟨i, h⟩
          = snapshotOf task asset (nextId + i) ((templateItemsOf tpl allItems).get ⟨i, h2⟩))
    ∧ (edit_template_item db itemId f).taskItems = db.taskItems
    ∧ (delete_template_item db itemId).taskItems.map snapFields
        = db.taskItems.map snapFields := by
  refine ⟨buildSnapshots_length task asset nextId _, List.perm_insertionSort _ _,
    List.sorted_insertionSort tplItemRel _,
    fun i h h2 => buildSnapshots_get task asset nextId _ i h h2, rfl, ?_⟩
  simp only [delete_template_item, List.map_map]
  apply List.map_congr_left
  intro s _
  show snapFields (if s.template_item == some itemId then _ else s) = snapFields s
  split <;> rfl

theorem template_instantiation_snapshots_witness :
    (create_checklist_from_template 10 exTask exScopedTemplate exTemplateItems none).get
        ⟨0, by decide⟩
      = snapshotOf exTask none (10 + 0)
          ((templateItemsOf exScopedTemplate exTemplateItems).get ⟨0, by decide⟩) :=
  (template_instantiation_snapshots 10 exTask exScopedTemplate exTemplateItems none
      ⟨[], []⟩ 0 id).2.2.2.1 0 (by decide) (by decide)

/-- C6: closing a task whose checklist is empty still produces a report whose
drawn text contains the explicit "Nessuna voce in checklist." marker, and the
task's status moves to done. -/
theorem close_empty_checklist_reports_marker (sub : AnswerSubmission) (now : Nat)
    (siteName : String) (assets : List Asset) (t : MaintenanceTask) :
    (save_answers_action sub true now siteName assets t []).1.status = TaskStatus.done
    ∧ ∃ r, (save_answers_action sub true now siteName assets t []).1.report_pdf = some r
        ∧ "Nessuna voce in checklist." ∈ r :=
  ⟨rfl, build_task_report_pdf siteName assets
      (if t.status ≠ TaskStatus.done ∨ t.completed_at = none then
        { t with completed_at := some now } else t) [] now,
    rfl, report_marker_of_empty _ _ _ _⟩

/-- C7: with no status filter, the asset-list free-text filter returns every
asset whose name, type, serial, vendor or site name contains the query
case-insensitively — in particular an asset matched only through its site's
name. -/
theorem asset_list_returns_cross_entity_match (sites : List Site)
    (assets : List Asset) (a : Asset) (qRaw : String)
    (ha : a ∈ assets) (hq : strip qRaw ≠ "")
    (hm : icontains a.name (strip qRaw) = true
      ∨ icontains a.asset_type (strip qRaw) = true
      ∨ icontains a.serial (strip qRaw) = true
      ∨ icontains a.vendor (strip qRaw) = true
      ∨ icontains (siteNameOf sites a.site) (strip qRaw) = true) :
    a ∈ asset_list sites assets "" qRaw := by
  have hs : strip "" = "" := rfl
  simp only [asset_list, hs, List.mem_insertionSort]
  rw [if_pos hq, if_neg (show ¬ ("" ≠ "") from by simp)]
  refine List.mem_filter.mpr ⟨ha, ?_⟩
  simp only [asset_matches, Bool.or_eq_true]
  tauto

def exSites : List Site :=
  [{ id := 1, name := "Deposito Nord", address := "", notes := "" }]

def exAssets : List Asset :=
  [{ id := 1, site := 1, name := "pompa", asset_type := "idraulica", serial := "S-1",
     vendor := "Acme", status := AssetStatus.active, qr_token := 11 }]

theorem asset_list_returns_cross_entity_match_witness :
    { id := 1, site := 1, name := "pompa", asset_type := "idraulica", serial := "S-1",
      vendor := "Acme", status := AssetStatus.active, qr_token := 11 : Asset }
      ∈ asset_list exSites exAssets "" "nord" :=
  asset_list_returns_cross_entity_match exSites exAssets _ "nord" (by decide)
    (by decide) (Or.inr (Or.inr (Or.inr (Or.inr (by decide)))))

/-- C8: asset identification tokens are unique across the asset table and
immutable: inserting a row with a colliding token fails (uniqueness
constraint), a successful insertion keeps the token column duplicate-free,
and an edit of an asset (whose form can never carry the `editable=False`
token) leaves the token column unchanged. -/
theorem asset_token_unique_and_immutable (db : List Asset)
    (hnd : (asset_tokens db).Nodup) :
    (∀ a db2, create_asset db a = Except.ok db2 → (asset_tokens db2).Nodup)
    ∧ (∀ a, a.qr_token ∈ asset_tokens db →
        create_asset db a = Except.error "duplicate qr_token")
    ∧ (∀ aid form, asset_tokens (admin_edit_asset db aid form) = asset_tokens db) := by
  refine ⟨?_, ?_, ?_⟩
  · intro a db2 h
    unfold create_asset at h
    split at h
    · cases h
    · next hmem =>
        cases h
        simp only [asset_tokens, List.map_append, List.map_cons, List.map_nil]
        rw [List.nodup_append]
        refine ⟨hnd, List.nodup_singleton _, ?_⟩
        intro x hx hx2
        simp only [List.mem_singleton] at hx2
        subst hx2
        exact hmem hx
  · intro a hmem
    unfold create_asset
    rw [if_pos hmem]
  · intro aid form
    simp only [admin_edit_asset, asset_tokens, List.map_map]
    apply List.map_congr_left
    intro x _
    simp only [Function.comp_apply]
    split <;> rfl

def exTokenForm : AssetForm :=
  { site := 1, name := "pompa 2", asset_type := "idraulica", serial := "S-9",
    vendor := "Acme", status := AssetStatus.out_of_service }

theorem asset_token_unique_and_immutable_witness :
    asset_tokens (admin_edit_asset exAssets 1 exTokenForm) = asset_tokens exAssets :=
  (asset_token_unique_and_immutable exAssets (by decide)).2.2 1 exTokenForm

/-- C9: every write path for checklist items keeps the value slots consistent
with the item's type: template instantiation and ad hoc addition create rows
with all slots empty, and answer capture writes only the slot selected by the
item's type, so the discipline `typedOk` is preserved. -/
theorem checklist_writes_preserve_typed_slot :
    (∀ (nextId : Nat) (task : MaintenanceTask) (tpl : ChecklistTemplate)
        (allItems : List ChecklistTemplateItem) (asset : Option Nat)
        (it : TaskChecklistItem),
        it ∈ create_checklist_from_template nextId task tpl allItems asset → typedOk it)
    ∧ (∀ (nextId : Nat) (task : MaintenanceTask) (assets : List Asset)
        (labelRaw rawType : String) (required : Bool) (unitRaw : String)
        (assetId : Option Nat) (res : TaskChecklistItem),
        add_checklist_item nextId task assets labelRaw rawType required unitRaw assetId
          = some res → typedOk res)
    ∧ (∀ (sub : AnswerSubmission) (it : TaskChecklistItem),
        typedOk it → typedOk (apply_answer sub it)) := by
  refine ⟨?_, ?_, ?_⟩
  · intro nextId task tpl allItems asset it hmem
    exact typedOk_buildSnapshots task asset nextId _ it hmem
  · intro nextId task assets labelRaw rawType required unitRaw assetId res h
    simp only [add_checklist_item] at h
    split at h
    · cases h
    · injection h with h
      subst h
      simp [typedOk]
  · intro sub it hok
    obtain ⟨h1, h2, h3, h4⟩ := hok
    cases hty : it.item_type with
    | yesno =>
        have hv2 := h2 (by simp [hty])
        have hv3 := h3 (by simp [hty])
        have hv4 := h4 (by simp [hty])
        simp only [apply_answer, hty]
        split_ifs <;> simp [typedOk, hty, hv2, hv3, hv4]
    | number =>
        have hv1 := h1 (by simp [hty])
        have hv3 := h3 (by simp [hty])
        have hv4 := h4 (by simp [hty])
        simp only [apply_answer, hty]
        split_ifs <;> simp [typedOk, hty, hv1, hv3, hv4]
    | text =>
        have hv1 := h1 (by simp [hty])
        have hv2 := h2 (by simp [hty])
        have hv4 := h4 (by simp [hty])
        simp [apply_answer, hty, typedOk, hv1, hv2, hv4]
    | photo =>
        have hv1 := h1 (by simp [hty])
        have hv2 := h2 (by simp [hty])
        have hv3 := h3 (by simp [hty])
        simp only [apply_answer, hty]
        cases sub.photo it.id <;> simp [typedOk, hty, hv1, hv2, hv3]

theorem checklist_writes_preserve_typed_slot_witness :
    typedOk (apply_answer exUnparsableSub exNumberItem) :=
  checklist_writes_preserve_typed_slot.2.2 exUnparsableSub exNumberItem
    (by unfold typedOk; decide)

/-- C10: answer submission rewrites the task's checklist items as a batch
(every item is rewritten, in place); for a yes/no, number or text item the
handler's default value for an absent field (the empty string) clears or
empties the stored answer, while a photo item with no upload is returned
entirely unchanged, keeping its existing attachment. -/
theorem save_answers_batch_rewrite (sub : AnswerSubmission)
    (items : List TaskChecklistItem) (it : TaskChecklistItem) :
    ((save_answers sub items).length = items.length)
    ∧ (∀ (i : Nat) (h : i < (save_answers sub items).length) (h2 : i < items.length),
        (save_answers sub items).get ⟨i, h⟩ = apply_answer sub (items.get ⟨i, h2⟩))
    ∧ (it.item_type = ItemType.yesno → sub.yesno it.id = "" →
        (apply_answer sub it).value_bool = none)
    ∧ (it.item_type = ItemType.number → sub.number it.id = "" →
        (apply_answer sub it).value_number = none)
    ∧ (it.item_type = ItemType.text → sub.text it.id = "" →
        (apply_answer sub it).value_text = "")
    ∧ (it.item_type = ItemType.photo → sub.photo it.id = none →
        apply_answer sub it = it) := by
  refine ⟨by simp [save_answers], ?_, ?_, ?_, ?_, ?_⟩
  · intro i h h2
    simp [save_answers]
  · intro hty hv
    simp only [apply_answer, hty, hv]
    rw [if_neg (by decide), if_neg (by decide)]
  · intro hty hv
    simp only [apply_answer, hty]
    rw [if_neg (by rw [hv]; decide)]
  · intro hty hv
    simp only [apply_answer, hty, hv]
    rfl
  · intro hty hv
    simp only [apply_answer, hty, hv]

def exEmptySub : AnswerSubmission :=
  { yesno := fun _ => "", number := fun _ => "", text := fun _ => "",
    photo := fun _ => none }

theorem save_answers_batch_rewrite_witness :
    (apply_answer exEmptySub exNumberItem).value_number = none :=
  (save_answers_batch_rewrite exEmptySub [] exNumberItem).2.2.2.1 (by decide) (by decide)

end NurseryMaint
